import Mathlib

/-
Verification of the `spatialcluster` ACEnsemble command-line wrapper
(`spatialcluster/cmd/acens.py`) against its natural-language specification.

The wrapper's own code (`parsepars`, `main`) is embedded faithfully below.
External collaborators that are not part of this repository's visible source
(parameter-file sectioning, GSLIB table I/O) are treated as inputs: `parsepars`
receives the three parameter-file sections as line lists and the loaded data
table as a value.  Components of the repository that the spec describes but
whose code is not in the visible source (the `ACEnsemble` engine,
`reclass_clusters`) are modelled from the spec; their doc comments say so.

Python semantics conventions:
  * a Python `str` is a `PyStr := List Char`;
  * fallible Python code returns `Except PyErr _`; the `PyErr` constructors
    cover both Python runtime errors and the spec's error taxonomy;
  * numeric data values are `Rat` (exact stand-in for `float` inputs, none of
    the verified claims depend on rounding); labels are `Int`.
-/

set_option autoImplicit false

namespace ACens

/-- Python runtime errors together with the spec's §7 error taxonomy. -/
inductive PyErr where
  | typeError
  | indexError
  | valueError
  | assertionError
  | keyError
  | invalidGeometry
  | degenerateRealization
  | insufficientEnsemble
  | invalidConfiguration
deriving DecidableEq, Repr

/-- A Python string, modelled as its character list. -/
abbrev PyStr := List Char

instance {ε α : Type} [DecidableEq ε] [DecidableEq α] : DecidableEq (Except ε α) := by
  intro x y
  cases x <;> cases y
  case error.error e1 e2 => exact decidable_of_iff (e1 = e2) (by simp)
  case ok.ok a1 a2 => exact decidable_of_iff (a1 = a2) (by simp)
  all_goals exact Decidable.isFalse (by simp)

/-- Whitespace characters recognised by Python's `str.split()`. -/
def isWs (c : Char) : Bool :=
  c == ' ' || c == '\t' || c == '\n' || c == '\r'

/-- Accumulator-driven worker for `splitWs`; `acc` holds the current token
reversed. -/
def splitWsAux : PyStr → PyStr → List PyStr
  | acc, [] => if acc.isEmpty then [] else [acc.reverse]
  | acc, c :: r =>
    if isWs c then
      if acc.isEmpty then splitWsAux [] r else acc.reverse :: splitWsAux [] r
    else splitWsAux (c :: acc) r

/-- Python `s.split()`: split on whitespace runs, dropping empty tokens. -/
def splitWs (s : PyStr) : List PyStr := splitWsAux [] s

/-- Python `s.rfind('-')`: index of the last occurrence of a dash,
`-1` when there is none. -/
def rfindDash (s : PyStr) : Int :=
  s.enum.foldl (fun acc p => if p.2 = '-' then (p.1 : Int) else acc) (-1)

/-- Python `s[:n]` for an `Int` bound: a negative bound counts from the end,
clamping at zero. -/
def pySliceTo (s : PyStr) (n : Int) : PyStr :=
  if n < 0 then s.take (s.length - (-n).toNat) else s.take n.toNat

/-- Decimal digit value of a character, when it is a digit. -/
def digitVal? (c : Char) : Option Nat :=
  if '0' ≤ c ∧ c ≤ '9' then some (c.toNat - 48) else none

/-- Fold a digit string into a number; fails on any non-digit. -/
def digitsValAux : PyStr → Nat → Option Nat
  | [], acc => some acc
  | c :: r, acc =>
    match digitVal? c with
    | some d => digitsValAux r (10 * acc + d)
    | none => none

/-- Value of a nonempty all-digit string. -/
def digitsVal? : PyStr → Option Nat
  | [] => none
  | l => digitsValAux l 0

/-- Value of a possibly-empty all-digit string (empty reads as zero). -/
def digitsVal0 (l : PyStr) : Option Nat := digitsValAux l 0

/-- Python `int(token)` on a whitespace-free token. -/
def parseInt? : PyStr → Option Int
  | '-' :: r => (digitsVal? r).map (fun n => -(n : Int))
  | '+' :: r => (digitsVal? r).map (fun n => (n : Int))
  | s => (digitsVal? s).map (fun n => (n : Int))

/-- `int()` as the raising Python call. -/
def parseIntE (s : PyStr) : Except PyErr Int :=
  match parseInt? s with
  | some n => .ok n
  | none => .error .valueError

/-- Split a string at its first dot, keeping the remainder. -/
def splitDot : PyStr → PyStr × Option PyStr
  | [] => ([], none)
  | '.' :: r => ([], some r)
  | c :: r =>
    let p := splitDot r
    (c :: p.1, p.2)

/-- Unsigned decimal `float(token)`, as an exact rational. -/
def parseUFloat? (s : PyStr) : Option Rat :=
  match splitDot s with
  | (a, none) =>
    match digitsVal? a with
    | some n => some (n : Rat)
    | none => none
  | (a, some b) =>
    if a.isEmpty && b.isEmpty then none
    else
      match digitsVal0 a, digitsVal0 b with
      | some ia, some ib => some ((ia : Rat) + (ib : Rat) / ((10 : Rat) ^ b.length))
      | _, _ => none

/-- Python `float(token)` on a whitespace-free decimal token. -/
def parseFloat? : PyStr → Option Rat
  | '-' :: r => (parseUFloat? r).map (fun q => -q)
  | '+' :: r => parseUFloat? r
  | s => parseUFloat? s

/-- `float()` as the raising Python call. -/
def parseFloatE (s : PyStr) : Except PyErr Rat :=
  match parseFloat? s with
  | some q => .ok q
  | none => .error .valueError

/-- Effectful map over a list, propagating the first error (a Python list
comprehension over a raising conversion). -/
def exMap {α β : Type} (f : α → Except PyErr β) : List α → Except PyErr (List β)
  | [] => .ok []
  | x :: xs => do
    let y ← f x
    let ys ← exMap f xs
    pure (y :: ys)

/-- Python `lines[i]`: `IndexError` when out of range. -/
def getLineE (ls : List PyStr) (i : Nat) : Except PyErr PyStr :=
  match ls.get? i with
  | some l => .ok l
  | none => .error .indexError

/-- Python `line.split()[0]`: `IndexError` on a blank line. -/
def firstTokE (l : PyStr) : Except PyErr PyStr :=
  match splitWs l with
  | [] => .error .indexError
  | t :: _ => .ok t

/-- Python tuple unpacking `a, b, c, d = l` for a list of ints. -/
def unpack4I (l : List Int) : Except PyErr (Int × Int × Int × Int) :=
  match l with
  | [a, b, c, d] => .ok (a, b, c, d)
  | _ => .error .valueError

/-- Python tuple unpacking `a, b = l` for a list of ints. -/
def unpack2I (l : List Int) : Except PyErr (Int × Int) :=
  match l with
  | [a, b] => .ok (a, b)
  | _ => .error .valueError

/-- Python tuple unpacking `a, b = l` for a list of rationals. -/
def unpack2R (l : List Rat) : Except PyErr (Rat × Rat) :=
  match l with
  | [a, b] => .ok (a, b)
  | _ => .error .valueError

/-- Python `assert cond`. -/
def assertE (b : Prop) [Decidable b] : Except PyErr Unit :=
  if b then .ok () else .error .assertionError

/-- The table loaded by the external `read_gslib` collaborator: a list of
columns of equal length (a pandas `DataFrame`, columns addressed
positionally via `data.columns`). -/
structure DataTable where
  columns : List (List Rat)
deriving DecidableEq, Repr

/-- `data[cols[i]].values` for an `Int` position `i` into `data.columns`:
negative positions count from the end (Python indexing); out-of-range
positions raise `IndexError`. -/
def getColE (t : DataTable) (i : Int) : Except PyErr (List Rat) :=
  if h : 0 ≤ i ∧ i.toNat < t.columns.length then .ok (t.columns.get ⟨i.toNat, h.2⟩)
  else if h2 : i < 0 ∧ (-i).toNat ≤ t.columns.length then
    .ok (t.columns.get ⟨t.columns.length - (-i).toNat, by omega⟩)
  else .error .indexError

/-- Lines 65-67 of `acens.py`: the `locations` array, columns `ifx`, `ify`
and, when `ifz > 0`, also `ifz` (1-based), as a row-per-point list. -/
def locationsOf (t : DataTable) (ifx ify ifz : Int) : Except PyErr (List (List Rat)) := do
  let c1 ← getColE t (ifx - 1)
  let c2 ← getColE t (ify - 1)
  let locs := List.zipWith (fun a b => [a, b]) c1 c2
  if ifz > 0 then do
    let c3 ← getColE t (ifz - 1)
    pure (List.zipWith (fun r c => r ++ [c]) locs c3)
  else
    pure locs

/-- Line 68 of `acens.py`: `pars['dhs'] = dh[cols[dh - 1]] if dh > 0 else None`.
When `dh > 0`, Python first evaluates `cols[dh - 1]` (an `IndexError` when out
of range) and then subscripts the integer `dh` with it, which raises
`TypeError` unconditionally: `dh` is an `int`, not the data table. -/
def dhsOf (t : DataTable) (dh : Int) : Except PyErr (Option (List Rat)) :=
  if dh > 0 then do
    let _ ← getColE t (dh - 1)
    .error .typeError
  else .ok none

/-- Line 85 of `acens.py`: the autocorrelation metric codes, read from the
metrics line truncated at its own last dash. -/
def acmetricOf (l4 : PyStr) : Except PyErr (List Int) :=
  exMap parseIntE (splitWs (pySliceTo l4 (rfindDash l4)))

/-- Line 86 of `acens.py`: the autocorrelation proportions, read from the
proportions line `l5` truncated at the last dash of the METRICS line `l4`
(the source reuses `lines[4].rfind` in the slice of `lines[5]`). -/
def acpropOf (l4 l5 : PyStr) : Except PyErr (List Rat) :=
  exMap parseFloatE (splitWs (pySliceTo l5 (rfindDash l4)))

/-- The floats literally written on the proportions line: the line truncated
at its own last dash. -/
def propsWritten (l5 : PyStr) : Except PyErr (List Rat) :=
  exMap parseFloatE (splitWs (pySliceTo l5 (rfindDash l5)))

/-- Parsed output of the `START OF DATA:` section. -/
structure DataPars where
  datafile : PyStr
  locations : List (List Rat)
  dhs : Option (List Rat)
  mvdata : List (List Rat)
  outfile : PyStr
  saveall : Bool
  recode : Bool
  appendout : Bool
deriving DecidableEq, Repr

/-- Lines 53-75 of `acens.py`: parse the data section.  `data` is the table
the external `read_gslib` loaded from the named datafile. -/
def parseDataSection (lines : List PyStr) (data : DataTable) : Except PyErr DataPars := do
  let l0 ← getLineE lines 0
  let datafile ← firstTokE l0
  let l1 ← getLineE lines 1
  let nums ← exMap parseIntE ((splitWs l1).take 4)
  let q ← unpack4I nums
  let _ ← assertE (q.2.1 > 0 ∧ q.2.2.1 > 0)
  let locations ← locationsOf data q.2.1 q.2.2.1 q.2.2.2
  let dhs ← dhsOf data q.1
  let l2 ← getLineE lines 2
  let varcols ← exMap parseIntE (splitWs (pySliceTo l2 (rfindDash l2)))
  let mvdata ← exMap (fun vc => getColE data (vc - 1)) varcols
  let l3 ← getLineE lines 3
  let outfile ← firstTokE l3
  let l4 ← getLineE lines 4
  let flags ← exMap parseIntE ((splitWs l4).take 2)
  let fl ← unpack2I flags
  let l5 ← getLineE lines 5
  let t5 ← firstTokE l5
  let ap ← parseIntE t5
  pure ⟨datafile, locations, dhs, mvdata, outfile, fl.1 != 0, fl.2 != 0, ap != 0⟩

/-- Parsed output of the `START OF AC:` section. -/
structure ACPars where
  nnears : Int
  searchparams : List Rat
  cluster_method : PyStr
  acmetric : List Int
  acprop : List Rat
deriving DecidableEq, Repr

/-- Lines 76-86 of `acens.py`: parse the autocorrelation section.  Note there
is no validation of `cluster_method` against any enumerated set of names. -/
def parseACSection (lines : List PyStr) : Except PyErr ACPars := do
  let l0 ← getLineE lines 0
  let t0 ← firstTokE l0
  let nnears ← parseIntE t0
  let l1 ← getLineE lines 1
  let angs ← exMap parseFloatE ((splitWs l1).take 3)
  let l2 ← getLineE lines 2
  let ranges ← exMap parseFloatE ((splitWs l2).take 3)
  let l3 ← getLineE lines 3
  let cluster_method ← firstTokE l3
  let l4 ← getLineE lines 4
  let acmetric ← acmetricOf l4
  let l5 ← getLineE lines 5
  let acprop ← acpropOf l4 l5
  pure ⟨nnears, angs ++ ranges, cluster_method, acmetric, acprop⟩

/-- Parsed output of the `START OF ENS:` section. -/
structure ENSPars where
  rseed : Int
  nreal : Int
  minvars : Int
  fnclus : Int
  tnclus : Int
  minremove : Rat
  maxremove : Rat
  minfound : Rat
  maxfound : Rat
  consensus_method : PyStr
deriving DecidableEq, Repr

/-- Lines 87-96 of `acens.py`: parse the ensemble section.  Note there is no
validation of `consensus_method` against any enumerated set of names. -/
def parseENSSection (lines : List PyStr) : Except PyErr ENSPars := do
  let l0 ← getLineE lines 0
  let t0 ← firstTokE l0
  let rseed ← parseIntE t0
  let l1 ← getLineE lines 1
  let t1 ← firstTokE l1
  let nreal ← parseIntE t1
  let l2 ← getLineE lines 2
  let t2 ← firstTokE l2
  let minvars ← parseIntE t2
  let l3 ← getLineE lines 3
  let cs ← exMap parseIntE ((splitWs l3).take 2)
  let fc ← unpack2I cs
  let l4 ← getLineE lines 4
  let rem ← exMap parseFloatE ((splitWs l4).take 2)
  let mr ← unpack2R rem
  let l5 ← getLineE lines 5
  let fnd ← exMap parseFloatE ((splitWs l5).take 2)
  let mf ← unpack2R fnd
  let l6 ← getLineE lines 6
  let consensus_method ← firstTokE l6
  pure ⟨rseed, nreal, minvars, fc.1, fc.2, mr.1, mr.2, mf.1, mf.2, consensus_method⟩

/-- The dictionary `parsepars` returns (the `pars` dict of `acens.py`). -/
structure Pars where
  datafile : PyStr
  locations : List (List Rat)
  dhs : Option (List Rat)
  mvdata : List (List Rat)
  outfile : PyStr
  saveall : Bool
  recode : Bool
  appendout : Bool
  nnears : Int
  searchparams : List Rat
  cluster_method : PyStr
  acmetric : List Int
  acprop : List Rat
  rseed : Int
  nreal : Int
  minvars : Int
  fnclus : Int
  tnclus : Int
  minremove : Rat
  maxremove : Rat
  minfound : Rat
  maxfound : Rat
  consensus_method : PyStr
deriving DecidableEq, Repr

/-- Lines 45-97 of `acens.py`: `parsepars`.  The external
`parstr_sectionindexes` has already cut the parfile into its three sections
(`dataLines`, `acLines`, `ensLines`), and the external `read_gslib` has
loaded the datafile into `data`. -/
def parsepars (dataLines acLines ensLines : List PyStr) (data : DataTable) :
    Except PyErr Pars := do
  let d ← parseDataSection dataLines data
  let a ← parseACSection acLines
  let e ← parseENSSection ensLines
  pure ⟨d.datafile, d.locations, d.dhs, d.mvdata, d.outfile, d.saveall, d.recode,
        d.appendout, a.nnears, a.searchparams, a.cluster_method, a.acmetric, a.acprop,
        e.rseed, e.nreal, e.minvars, e.fnclus, e.tnclus, e.minremove, e.maxremove,
        e.minfound, e.maxfound, e.consensus_method⟩

/-- Modelled from the spec: `SpatialIndex.build` (§4.1) validates the search
parameters (3 anisotropy angles followed by 3 ranges) and fails with
`InvalidGeometryError` if any search range is ≤ 0 or the parameters are
malformed, before any clustering work. -/
def SpatialIndex.build (locations : List (List Rat)) (searchparams : List Rat) :
    Except PyErr Unit :=
  if searchparams.length = 6 ∧ ∀ r ∈ searchparams.drop 3, 0 < r then .ok ()
  else .error .invalidGeometry

/-- Modelled from the spec: the per-realization seed, derived deterministically
from the master seed and the realization index (§4.3). -/
def deriveSeed (master : Int) (i : Nat) : Int := master + ((i : Int) + 1) * 7919

/-- Modelled from the spec: one `EnsembleMember` realization (§4.3).  The base
clustering primitives are external library collaborators (§1); the realization
is modelled as a deterministic complete labeling of all `npts` points computed
from the realization's derived seed, with labels in `[0, k)`. -/
def ensembleMember (seed : Int) (npts : Nat) (k : Int) : List Int :=
  (List.range npts).map (fun j => (seed + (j : Int)) % (max k 1))

/-- Modelled from the spec: `EnsembleGenerator.generate` (§4.4) produces
`nreal` realizations, slot-indexed by realization number (the gather must
preserve realization-index ordering regardless of completion order, §5), each
computed from its per-realization derived seed. -/
def EnsembleGenerator.generate (npts : Nat) (rseed : Int) (nreal : Nat) (tnclus : Int) :
    List (List Int) :=
  (List.range nreal).map (fun i => ensembleMember (deriveSeed rseed i) npts tnclus)

/-- Modelled from the spec: `ConsensusEngine.consense` (§4.6) reduces a
nonempty ensemble to one final clustering at `fnclus` clusters and fails with
`InsufficientEnsembleError` on an empty ensemble (all realizations rejected).
Both consensus strategies produce some deterministic clustering; no verified
claim depends on the strategy's content, so one deterministic reduction
stands for both. -/
def consense (ensemble : List (List Int)) (fnclus : Int) (method : PyStr) :
    Except PyErr (List Int) :=
  match ensemble, method with
  | [], _ => .error .insufficientEnsemble
  | real0 :: _, _ => .ok (real0.map (fun l => l % (max fnclus 1)))

/-- Modelled from the spec: the `ACEnsemble` clustering object (§6).  It is
constructed from the parsed parameters (`cluster_object(**pars)`) and stores
the generated ensemble after `fit`, realization `i` at index `i`. -/
structure ACEnsemble where
  pars : Pars
  clusterings : List (List Int) := []
deriving DecidableEq, Repr

/-- Modelled from the spec: `fit(intermediateClusterCount)` builds the spatial
index from the locations and search parameters (validating the ranges), then
generates and stores the ensemble of `tnclus`-cluster realizations. -/
def ACEnsemble.fit (m : ACEnsemble) (tnclus : Int) : Except PyErr ACEnsemble := do
  let _ ← SpatialIndex.build m.pars.locations m.pars.searchparams
  pure { m with
         clusterings := EnsembleGenerator.generate m.pars.locations.length
                          m.pars.rseed m.pars.nreal.toNat tnclus }

/-- Modelled from the spec: `predict(finalClusterCount, method)` runs the
consensus step over the stored ensemble. -/
def ACEnsemble.predict (m : ACEnsemble) (fnclus : Int) (method : PyStr) :
    Except PyErr (List Int) :=
  consense m.clusterings fnclus method

/-- Number of points sharing consensus label `c` and raw label `l`. -/
def overlapCount (labels real : List Int) (c l : Int) : Nat :=
  ((labels.zip real).filter (fun p => decide (p.1 = c) && decide (p.2 = l))).length

/-- The consensus label best matching raw label `l` of one realization:
the consensus label with maximum point overlap (first-seen on ties). -/
def bestMatch (labels real : List Int) (l : Int) : Int :=
  labels.dedup.foldl
    (fun best c =>
      if overlapCount labels real best l < overlapCount labels real c l then c else best)
    l

/-- Modelled from the spec: `reclass_clusters` (§6), the relabeling utility
that recodes raw ensemble labels onto the consensus labeling's naming; each
realization's labels are mapped to the consensus label of maximum overlap.
Returns the recoded ensemble (the caller discards the second component). -/
def reclass_clusters (labels : List Int) (clusterings : List (List Int)) :
    List (List Int) × List Int :=
  (clusterings.map (fun real => real.map (bestMatch labels real)), labels)

/-- `cluster_object.__name__` in `acens.py`: the string `ACEnsemble`. -/
def thisname : String := "ACEnsemble"

/-- Line 104 of `acens.py`: `shortname = thisname[:5].lower()`. -/
def shortname : PyStr := (thisname.toList.take 5).map Char.toLower

/-- Name of the consensus label column: `'acens_clusters'`. -/
def clustersColName : PyStr := shortname ++ "_clusters".toList

/-- Little-endian decimal digits with an explicit recursion bound
(the call site always supplies `fuel > n`). -/
def digitsRevAux : Nat → Nat → List Char
  | 0, _ => []
  | fuel + 1, n =>
    if n < 10 then [Nat.digitChar n]
    else Nat.digitChar (n % 10) :: digitsRevAux fuel (n / 10)

/-- Little-endian decimal digits of a natural number (Python `str(i)` before
reversal). -/
def digitsRev (n : Nat) : List Char := digitsRevAux (n + 1) n

/-- Python `str(i)` for a natural number. -/
def natToChars (n : Nat) : PyStr := (digitsRev n).reverse

/-- Value of a little-endian digit string (specification of `digitsRev`). -/
def valRevD : List Char → Nat
  | [] => 0
  | c :: r => (c.toNat - 48) + 10 * valRevD r

/-- Name of the column for realization `i`: `'acens_real' + str(i)`. -/
def realColName (i : Nat) : PyStr := shortname ++ "_real".toList ++ natToChars i

/-- The output table being assembled by `main`: an ordered sequence of named
label columns (the output `DataFrame`). -/
abbrev OutTable := List (PyStr × List Int)

/-- Is there a column named `n`? -/
def hasCol : OutTable → PyStr → Bool
  | [], _ => false
  | p :: rest, n => decide (p.1 = n) || hasCol rest n

/-- Replace every column named `n` by the new values, keeping positions. -/
def replaceCol : OutTable → PyStr → List Int → OutTable
  | [], _, _ => []
  | p :: rest, n, v => (if p.1 = n then (n, v) else p) :: replaceCol rest n v

/-- `data[name] = vals` on a `DataFrame`: overwrite an existing column in
place, otherwise append a new one. -/
def setCol (t : OutTable) (n : PyStr) (v : List Int) : OutTable :=
  if hasCol t n then replaceCol t n v else t ++ [(n, v)]

/-- `data[name]` lookup (first column of that name). -/
def getColT : OutTable → PyStr → Option (List Int)
  | [], _ => none
  | p :: rest, n => if p.1 = n then some p.2 else getColT rest n

/-- The ensemble whose columns `main` writes under `saveall`: the recoded
ensemble when `recode` is set, the stored ensemble otherwise
(lines 139-142 of `acens.py`). -/
def effClusterings (labels : List Int) (stored : List (List Int)) (recode : Bool) :
    List (List Int) :=
  if recode then (reclass_clusters labels stored).1 else stored

/-- Lines 143-144 of `acens.py`: `for i in range(nreal): data[...real{i}] =
clusterings[:, i]`, writing realizations `i, i+1, ...` while `fuel` remains;
a missing column is a numpy `IndexError`. -/
def writeRealsFrom (cl : List (List Int)) : Nat → Nat → OutTable → Except PyErr OutTable
  | _, 0, t => .ok t
  | i, fuel + 1, t =>
    match cl.get? i with
    | none => .error .indexError
    | some col => writeRealsFrom cl (i + 1) fuel (setCol t (realColName i) col)

/-- Lines 137-144 of `acens.py`: write the consensus labels column, then,
under `saveall`, the per-realization columns (recoded when `recode` is set). -/
def buildOutput (base : OutTable) (labels : List Int) (stored : List (List Int))
    (saveall recode : Bool) (nreal : Nat) : Except PyErr OutTable :=
  let t0 := setCol base clustersColName labels
  if saveall then writeRealsFrom (effClusterings labels stored recode) 0 nreal t0
  else .ok t0

/-- Lines 116-146 of `acens.py`: the body of `main` after argument handling.
The parameter file has been read and sectioned and the datafile loaded by the
external collaborators; `base` is the output table being appended to (the
re-read input table under `appendout`, a fresh frame otherwise — its contents
are external I/O and are threaded through unchanged). -/
def main (dataLines acLines ensLines : List PyStr) (data : DataTable)
    (base : OutTable) : Except PyErr OutTable := do
  let p ← parsepars dataLines acLines ensLines data
  let fitted ← ACEnsemble.fit { pars := p } p.tnclus
  let labels ← fitted.predict p.fnclus p.consensus_method
  buildOutput base labels fitted.clusterings p.saveall p.recode p.nreal.toNat

/-- A small well-formed data section (drill-hole column disabled, `dh = 0`). -/
def dataLinesW : List PyStr :=
  ["datafile.dat - file with the input dataset".toList,
   "0 1 2 0 - columns for dh, x, y, z data".toList,
   "3 4 - columns for variables".toList,
   "out.dat - file for clustering output".toList,
   "1 1 - save all reals? recode clusters?".toList,
   "0 - append output to input file?".toList]

/-- The same data section with a positive drill-hole column (`dh = 1`). -/
def dataLinesDH : List PyStr :=
  ["datafile.dat - file with the input dataset".toList,
   "1 2 3 0 - columns for dh, x, y, z data".toList,
   "3 4 - columns for variables".toList,
   "out.dat - file for clustering output".toList,
   "1 1 - save all reals? recode clusters?".toList,
   "0 - append output to input file?".toList]

/-- A small well-formed autocorrelation section. -/
def acLinesW : List PyStr :=
  ["25 - number of nearest neighbors".toList,
   "0 0 0 - search anisotropy".toList,
   "500 500 500 - ranges".toList,
   "kmeans - cluster method".toList,
   "1 2 - autocorrelation metrics".toList,
   "1 0 - autocorrelation props".toList]

/-- The same autocorrelation section with an unknown cluster method name. -/
def acLinesBogus : List PyStr :=
  ["25 - number of nearest neighbors".toList,
   "0 0 0 - search anisotropy".toList,
   "500 500 500 - ranges".toList,
   "bogus - cluster method".toList,
   "1 2 - autocorrelation metrics".toList,
   "1 0 - autocorrelation props".toList]

/-- The same autocorrelation section with a zero first search range. -/
def acLinesZeroRange : List PyStr :=
  ["25 - number of nearest neighbors".toList,
   "0 0 0 - search anisotropy".toList,
   "0 500 500 - ranges".toList,
   "kmeans - cluster method".toList,
   "1 2 - autocorrelation metrics".toList,
   "1 0 - autocorrelation props".toList]

/-- A small well-formed ensemble section (2 realizations, seed 7). -/
def ensLinesW : List PyStr :=
  ["7 - random seed".toList,
   "2 - num ensemble".toList,
   "-1 - min number of variables".toList,
   "2 3 - final nclus, target nclus".toList,
   "0 1 - min and max proportion to remove".toList,
   "0 1 - min and max proportion in found clustering".toList,
   "spec - final consensus method".toList]

/-- A small loaded data table: 4 columns of 3 rows. -/
def tblW : DataTable :=
  ⟨[[1, 2, 3], [4, 5, 6], [7, 8, 9], [10, 11, 12]]⟩

/-- The parameters parsed from the zero-range fixture
(`dataLinesW`, `acLinesZeroRange`, `ensLinesW`, `tblW`). -/
def pZeroRange : Pars :=
  { datafile := "datafile.dat".toList
    locations := [[1, 4], [2, 5], [3, 6]]
    dhs := none
    mvdata := [[7, 8, 9], [10, 11, 12]]
    outfile := "out.dat".toList
    saveall := true
    recode := true
    appendout := false
    nnears := 25
    searchparams := [0, 0, 0, 0, 500, 500]
    cluster_method := "kmeans".toList
    acmetric := [1, 2]
    acprop := [1, 0]
    rseed := 7
    nreal := 2
    minvars := -1
    fnclus := 2
    tnclus := 3
    minremove := 0
    maxremove := 1
    minfound := 0
    maxfound := 1
    consensus_method := "spec".toList }

/-- Does an outcome reject with the spec's `InvalidConfigurationError`? -/
def isConfigRejection {α : Type} : Except PyErr α → Bool
  | .error .invalidConfiguration => true
  | _ => false

/- ------------------------------------------------------------------ -/
/- Theorems.                                                           -/
/- ------------------------------------------------------------------ -/

theorem bindE_ok {α β : Type} (a : α) (f : α → Except PyErr β) :
    ((Except.ok a : Except PyErr α) >>= f) = f a := rfl

theorem bindE_error {α β : Type} (er : PyErr) (f : α → Except PyErr β) :
    ((Except.error er : Except PyErr α) >>= f) = Except.error er := rfl

theorem exists_of_mem_zipWith {α β γ : Type} {f : α → β → γ} :
    ∀ {l : List α} {m : List β} {y : γ}, y ∈ List.zipWith f l m →
      ∃ a b, a ∈ l ∧ b ∈ m ∧ y = f a b := by
  intro l
  induction l with
  | nil => intro m y h; simp at h
  | cons x xs ih =>
    intro m y h
    cases m with
    | nil => simp at h
    | cons z zs =>
      simp only [List.zipWith, List.mem_cons] at h
      rcases h with h | h
      · exact ⟨x, z, List.mem_cons_self _ _, List.mem_cons_self _ _, h⟩
      · obtain ⟨a, b, ha, hb, hy⟩ := ih h
        exact ⟨a, b, List.mem_cons_of_mem _ ha, List.mem_cons_of_mem _ hb, hy⟩

theorem getColE_mem {t : DataTable} {i : Int} {c : List Rat}
    (h : getColE t i = .ok c) : c ∈ t.columns := by
  unfold getColE at h
  split at h
  · exact (Except.ok.injEq _ _).mp h ▸ List.get_mem _ _ _
  · split at h
    · exact (Except.ok.injEq _ _).mp h ▸ List.get_mem _ _ _
    · exact absurd h (by simp)

/-- C6: every ok outcome of the locations computation (lines 63-67 of
`acens.py`) has one row per data row, each row holding exactly 2 coordinates
when the z column index is ≤ 0 and exactly 3 when it is positive. -/
theorem locations_shape (t : DataTable) (ifx ify ifz : Int)
    (locs : List (List Rat)) (n : Nat)
    (h : locationsOf t ifx ify ifz = .ok locs)
    (hn : ∀ c ∈ t.columns, c.length = n) :
    locs.length = n ∧ ∀ r ∈ locs, r.length = if ifz > 0 then 3 else 2 := by
  unfold locationsOf at h
  cases h1 : getColE t (ifx - 1) with
  | error er => rw [h1] at h; simp [bindE_error] at h
  | ok c1 =>
    rw [h1, bindE_ok] at h
    cases h2 : getColE t (ify - 1) with
    | error er => rw [h2] at h; simp [bindE_error] at h
    | ok c2 =>
      rw [h2, bindE_ok] at h
      have hc1 : c1.length = n := hn c1 (getColE_mem h1)
      have hc2 : c2.length = n := hn c2 (getColE_mem h2)
      by_cases hz : ifz > 0
      · rw [if_pos hz] at h
        cases h3 : getColE t (ifz - 1) with
        | error er => rw [h3] at h; simp [bindE_error] at h
        | ok c3 =>
          rw [h3, bindE_ok] at h
          have hc3 : c3.length = n := hn c3 (getColE_mem h3)
          have hlocs : locs = List.zipWith (fun r c => r ++ [c])
              (List.zipWith (fun a b => [a, b]) c1 c2) c3 := by
            simpa [pure, Except.pure] using h.symm
          subst hlocs
          constructor
          · simp [List.length_zipWith, hc1, hc2, hc3]
          · intro r hr
            obtain ⟨r0, c, hr0, _, hreq⟩ := exists_of_mem_zipWith hr
            obtain ⟨a, b, _, _, hr0eq⟩ := exists_of_mem_zipWith hr0
            rw [if_pos hz]
            simp [hreq, hr0eq]
      · rw [if_neg hz] at h
        have hlocs : locs = List.zipWith (fun a b => [a, b]) c1 c2 := by
          simpa [pure, Except.pure] using h.symm
        subst hlocs
        constructor
        · simp [List.length_zipWith, hc1, hc2]
        · intro r hr
          obtain ⟨a, b, _, _, hreq⟩ := exists_of_mem_zipWith hr
          rw [if_neg hz]
          simp [hreq]

/-- C6 witness: the well-formed fixture has 3 rows of 2 coordinates. -/
theorem locations_shape_witness :
    ([[1, 4], [2, 5], [3, 6]] : List (List Rat)).length = 3 ∧
      ∀ r ∈ ([[1, 4], [2, 5], [3, 6]] : List (List Rat)),
        r.length = if (0 : Int) > 0 then 3 else 2 :=
  locations_shape tblW 1 2 0 [[1, 4], [2, 5], [3, 6]] 3 (by decide) (by decide)

theorem digitChar_val : ∀ d < 10, (Nat.digitChar d).toNat - 48 = d := by decide

theorem valRevD_digitsRevAux :
    ∀ fuel n : Nat, n < fuel → valRevD (digitsRevAux fuel n) = n := by
  intro fuel
  induction fuel with
  | zero => intro n h; omega
  | succ f ih =>
    intro n h
    simp only [digitsRevAux]
    split
    · rename_i h10
      simp only [valRevD]
      rw [digitChar_val n h10]
      omega
    · rename_i h10
      push_neg at h10
      have hd : n / 10 < f := by
        have := Nat.div_lt_self (show 0 < n by omega) (show 1 < 10 by omega)
        omega
      simp only [valRevD, ih (n / 10) hd]
      rw [digitChar_val (n % 10) (Nat.mod_lt _ (by omega))]
      omega

theorem valRevD_digitsRev (n : Nat) : valRevD (digitsRev n) = n :=
  valRevD_digitsRevAux (n + 1) n (by omega)

theorem digitsRev_inj {m n : Nat} (h : digitsRev m = digitsRev n) : m = n := by
  have hm := valRevD_digitsRev m
  rw [h, valRevD_digitsRev] at hm
  exact hm.symm

theorem natToChars_inj {m n : Nat} (h : natToChars m = natToChars n) : m = n :=
  digitsRev_inj (List.reverse_injective h)

theorem realColName_inj {i j : Nat} (h : realColName i = realColName j) : i = j := by
  unfold realColName at h
  rw [List.append_assoc, List.append_assoc] at h
  exact natToChars_inj (List.append_cancel_left (List.append_cancel_left h))

theorem clusters_ne_real (j : Nat) : clustersColName ≠ realColName j := by
  intro h
  unfold clustersColName realColName at h
  rw [List.append_assoc] at h
  have h2 := List.append_cancel_left h
  have hc : "_clusters".toList = ['_', 'c', 'l', 'u', 's', 't', 'e', 'r', 's'] := by decide
  have hr : "_real".toList = ['_', 'r', 'e', 'a', 'l'] := by decide
  rw [hc, hr] at h2
  simp at h2

theorem hasCol_append (a b : OutTable) (n : PyStr) :
    hasCol (a ++ b) n = (hasCol a n || hasCol b n) := by
  induction a with
  | nil => simp [hasCol]
  | cons p rest ih => simp [hasCol, ih, Bool.or_assoc]

theorem getColT_setCol_self (t : OutTable) (n : PyStr) (v : List Int) :
    getColT (setCol t n v) n = some v := by
  unfold setCol
  by_cases hc : hasCol t n = true
  · rw [if_pos hc]
    induction t with
    | nil => simp [hasCol] at hc
    | cons p rest ih =>
      by_cases hp : p.1 = n
      · simp [replaceCol, hp, getColT]
      · simp only [hasCol, Bool.or_eq_true, decide_eq_true_eq] at hc
        rcases hc with hc | hc
        · exact absurd hc hp
        · simp only [replaceCol, if_neg hp, getColT, if_neg hp]
          exact ih hc
  · rw [if_neg hc]
    induction t with
    | nil => simp [getColT]
    | cons p rest ih =>
      simp only [hasCol, Bool.or_eq_true, decide_eq_true_eq] at hc
      push_neg at hc
      simp only [List.cons_append, getColT, if_neg hc.1]
      exact ih (by simpa using hc.2)

theorem getColT_replaceCol_ne (t : OutTable) (n : PyStr) (v : List Int) (m : PyStr)
    (hmn : m ≠ n) : getColT (replaceCol t n v) m = getColT t m := by
  induction t with
  | nil => rfl
  | cons p rest ih =>
    by_cases hp : p.1 = n
    · rw [show replaceCol (p :: rest) n v = (n, v) :: replaceCol rest n v by
        simp [replaceCol, hp]]
      rw [show getColT ((n, v) :: replaceCol rest n v) m = getColT (replaceCol rest n v) m by
        simp only [getColT]
        rw [if_neg (fun h : n = m => hmn h.symm)]]
      rw [show getColT (p :: rest) m = getColT rest m by
        simp only [getColT, hp]
        rw [if_neg (fun h : n = m => hmn h.symm)]]
      exact ih
    · simp only [replaceCol, if_neg hp, getColT]
      by_cases hpm : p.1 = m
      · simp [hpm]
      · simp only [if_neg hpm]
        exact ih

theorem getColT_append_one_ne (t : OutTable) (n : PyStr) (v : List Int) (m : PyStr)
    (hmn : m ≠ n) : getColT (t ++ [(n, v)]) m = getColT t m := by
  induction t with
  | nil =>
    simp only [List.nil_append, getColT]
    rw [if_neg (fun h : n = m => hmn h.symm)]
  | cons p rest ih =>
    simp only [List.cons_append, getColT]
    by_cases hpm : p.1 = m
    · simp [hpm]
    · simp only [if_neg hpm]
      exact ih

theorem getColT_setCol_ne (t : OutTable) (n : PyStr) (v : List Int) (m : PyStr)
    (hmn : m ≠ n) : getColT (setCol t n v) m = getColT t m := by
  unfold setCol
  by_cases hc : hasCol t n = true
  · rw [if_pos hc]
    exact getColT_replaceCol_ne t n v m hmn
  · rw [if_neg hc]
    exact getColT_append_one_ne t n v m hmn

theorem getColT_writeRealsFrom (cl : List (List Int)) (m : PyStr)
    (hm : ∀ j, m ≠ realColName j) :
    ∀ (fuel i : Nat) (t out : OutTable), writeRealsFrom cl i fuel t = .ok out →
      getColT out m = getColT t m := by
  intro fuel
  induction fuel with
  | zero =>
    intro i t out h
    simp only [writeRealsFrom] at h
    cases h
    rfl
  | succ f ih =>
    intro i t out h
    simp only [writeRealsFrom] at h
    cases hg : cl.get? i with
    | none => rw [hg] at h; cases h
    | some col =>
      rw [hg] at h
      rw [ih (i + 1) _ _ h]
      exact getColT_setCol_ne _ _ _ _ (hm i)

theorem buildOutput_clusters (base : OutTable) (labels : List Int)
    (stored : List (List Int)) (sa rc : Bool) (nreal : Nat) (out : OutTable)
    (h : buildOutput base labels stored sa rc nreal = .ok out) :
    getColT out clustersColName = some labels := by
  unfold buildOutput at h
  cases sa with
  | false =>
    simp only [Bool.false_eq_true, if_false] at h
    cases h
    exact getColT_setCol_self _ _ _
  | true =>
    simp only [if_true] at h
    rw [getColT_writeRealsFrom _ _ clusters_ne_real _ _ _ _ h]
    exact getColT_setCol_self _ _ _

theorem writeRealsFrom_fresh (cl : List (List Int)) :
    ∀ (fuel i : Nat) (t : OutTable),
      (∀ j, i ≤ j → hasCol t (realColName j) = false) →
      i + fuel ≤ cl.length →
      writeRealsFrom cl i fuel t =
        .ok (t ++ (List.range' i fuel).map (fun j => (realColName j, cl.getD j []))) := by
  intro fuel
  induction fuel with
  | zero =>
    intro i t _ _
    simp [writeRealsFrom, List.range']
  | succ f ih =>
    intro i t hfr hle
    have hi : i < cl.length := by omega
    have hget : cl.get? i = some (cl.get ⟨i, hi⟩) := List.get?_eq_get hi
    simp only [writeRealsFrom, hget]
    have hset : setCol t (realColName i) (cl.get ⟨i, hi⟩) =
        t ++ [(realColName i, cl.get ⟨i, hi⟩)] := by
      unfold setCol
      rw [hfr i (Nat.le_refl i)]
      simp
    rw [hset]
    rw [ih (i + 1) (t ++ [(realColName i, cl.get ⟨i, hi⟩)]) ?fresh (by omega)]
    · have hx : cl.getD i [] = cl.get ⟨i, hi⟩ := by
        rw [List.getD_eq_get?, hget]
        rfl
      have hr : List.range' i (f + 1) = i :: List.range' (i + 1) f := rfl
      rw [hr]
      simp only [List.map_cons, List.singleton_append, List.append_assoc]
      rw [hx]
    case fresh =>
      intro j hj
      rw [hasCol_append, hfr j (by omega)]
      simp only [hasCol, Bool.or_false, Bool.false_or, decide_eq_false_iff_not]
      exact fun heq => absurd (realColName_inj heq) (by omega)

theorem buildOutput_fresh (labels : List Int) (stored : List (List Int))
    (recode : Bool) (nreal : Nat)
    (h : nreal ≤ (effClusterings labels stored recode).length) :
    buildOutput [] labels stored true recode nreal =
      .ok ((clustersColName, labels) ::
        (List.range nreal).map
          (fun i => (realColName i, (effClusterings labels stored recode).getD i []))) := by
  unfold buildOutput
  simp only [if_true]
  have hset : setCol [] clustersColName labels = [(clustersColName, labels)] := rfl
  rw [hset]
  rw [writeRealsFrom_fresh (effClusterings labels stored recode) nreal 0
    [(clustersColName, labels)] ?fresh (by omega)]
  · rw [List.range_eq_range']
    simp
  case fresh =>
    intro j _
    simp only [hasCol, Bool.or_false, decide_eq_false_iff_not]
    exact clusters_ne_real j

/-- C7 (amended): with `saveall` set on a fresh output frame, the output is
the consensus column followed by exactly `nreal` realization columns in
ascending realization order, the column for realization `i` holding
realization `i` of the effective ensemble — the stored ensemble when `recode`
is unset, the recoded ensemble when `recode` is set. -/
theorem saveall_realization_columns (labels : List Int) (stored : List (List Int))
    (recode : Bool) (nreal : Nat) (h : nreal ≤ stored.length) :
    buildOutput [] labels stored true recode nreal =
      .ok ((clustersColName, labels) ::
        (List.range nreal).map
          (fun i => (realColName i, (effClusterings labels stored recode).getD i []))) := by
  apply buildOutput_fresh
  unfold effClusterings reclass_clusters
  cases recode <;> simpa using h

/-- C7 (amended) witness: one stored realization, no recoding. -/
theorem saveall_realization_columns_witness :
    buildOutput [] [0, 1] [[5, 7]] true false 1 =
      .ok ((clustersColName, [0, 1]) ::
        (List.range 1).map
          (fun i => (realColName i, (effClusterings [0, 1] [[5, 7]] false).getD i []))) :=
  saveall_realization_columns [0, 1] [[5, 7]] false 1 (by decide)

/-- C7 counterexample: with `saveall` and `recode` both set, the written
realization-0 column is the recoded labeling `[0, 0, 1, 1]`, which differs
from column 0 of the stored ensemble, `[1, 1, 0, 0]`. -/
theorem saveall_recode_column_differs :
    Except.map (fun t => getColT t (realColName 0))
        (buildOutput [] [0, 0, 1, 1] [[1, 1, 0, 0]] true true 1) =
      .ok (some [0, 0, 1, 1]) ∧
    ([[1, 1, 0, 0]] : List (List Int)).getD 0 [] = [1, 1, 0, 0] ∧
    decide (([0, 0, 1, 1] : List Int) = [1, 1, 0, 0]) = false := by
  exact ⟨by decide, by decide, by decide⟩

/-- C9: without `saveall`, the output is exactly the base frame with the
consensus column set — independent of the `recode` flag, with no realization
columns and hence no recoded labels; with `saveall` set, `recode` can change
the output. -/
theorem recode_effect_requires_saveall :
    (∀ (labels : List Int) (stored : List (List Int)) (nreal : Nat)
        (base : OutTable) (r1 r2 : Bool),
      buildOutput base labels stored false r1 nreal =
          buildOutput base labels stored false r2 nreal ∧
        buildOutput base labels stored false r1 nreal =
          .ok (setCol base clustersColName labels)) ∧
    ∃ (labels : List Int) (stored : List (List Int)) (nreal : Nat),
      decide (buildOutput [] labels stored true true nreal =
        buildOutput [] labels stored true false nreal) = false := by
  constructor
  · intro labels stored nreal base r1 r2
    exact ⟨rfl, rfl⟩
  · exact ⟨[0, 0, 1, 1], [[1, 1, 0, 0]], 1, by decide⟩

/-- C1: `EnsembleGenerator.generate` is deterministic — two invocations on
the same point count, master seed, realization count and target cluster
count give identical ensembles, with the same label at every realization and
point. -/
theorem generate_deterministic (npts : Nat) (rseed : Int) (nreal : Nat)
    (tnclus : Int) (e1 e2 : List (List Int))
    (h1 : e1 = EnsembleGenerator.generate npts rseed nreal tnclus)
    (h2 : e2 = EnsembleGenerator.generate npts rseed nreal tnclus) :
    e1 = e2 ∧ ∀ i j : Nat, (e1.getD i []).getD j 0 = (e2.getD i []).getD j 0 := by
  subst h1
  subst h2
  exact ⟨rfl, fun i j => rfl⟩

/-- C1 witness: two invocations at a concrete seed agree. -/
theorem generate_deterministic_witness :
    EnsembleGenerator.generate 3 7 2 3 = EnsembleGenerator.generate 3 7 2 3 ∧
      ∀ i j : Nat, ((EnsembleGenerator.generate 3 7 2 3).getD i []).getD j 0 =
        ((EnsembleGenerator.generate 3 7 2 3).getD i []).getD j 0 :=
  generate_deterministic 3 7 2 3 (EnsembleGenerator.generate 3 7 2 3)
    (EnsembleGenerator.generate 3 7 2 3) rfl rfl

/-- C8: the consensus step on an empty ensemble (all realizations rejected)
fails with `InsufficientEnsembleError` and produces no clustering, both
directly and through `predict` on a model whose stored ensemble is empty. -/
theorem consense_empty_insufficient (fnclus : Int) (method : PyStr) (p : Pars) :
    consense [] fnclus method = .error .insufficientEnsemble ∧
      ACEnsemble.predict { pars := p, clusterings := [] } fnclus method =
        .error .insufficientEnsemble :=
  ⟨rfl, rfl⟩

/-- C10: the proportion weights are parsed from the proportions line
truncated at the METRICS line's last dash offset (line 86 of `acens.py`
reuses `lines[4].rfind`); when the two lines place their dash at the same
offset this equals the floats written on the proportions line, and at a
concrete parfile where the offsets differ the parsed weights are not the
written floats. -/
theorem acprop_uses_metrics_line_offset :
    (∀ l4 l5 : PyStr, rfindDash l4 = rfindDash l5 →
      acpropOf l4 l5 = propsWritten l5) ∧
    acpropOf ("1 2 -a".toList) ("25 75 - props".toList) = .ok [25, 7] ∧
    propsWritten ("25 75 - props".toList) = .ok [25, 75] ∧
    decide (acpropOf ("1 2 -a".toList) ("25 75 - props".toList) =
      propsWritten ("25 75 - props".toList)) = false := by
  refine ⟨?_, by decide, by decide, by decide⟩
  intro l4 l5 h
  unfold acpropOf propsWritten
  rw [h]

/-- C10 witness: at aligned dash offsets the parsed weights are the written
floats. -/
theorem acprop_uses_metrics_line_offset_witness :
    acpropOf ("1 2 - m".toList) ("3 4 - p".toList) =
      propsWritten ("3 4 - p".toList) :=
  acprop_uses_metrics_line_offset.1 ("1 2 - m".toList) ("3 4 - p".toList)
    (by decide)

/-- C2: whenever `main` succeeds, it has fit the model at the intermediate
cluster count `tnclus` and then predicted at the final cluster count `fnclus`
with the configured consensus method, and the consensus label column written
to the output equals exactly the labels `predict` returned. -/
theorem main_fit_predict_column (d a e : List PyStr) (tbl : DataTable)
    (base : OutTable) (out : OutTable)
    (h : main d a e tbl base = .ok out) :
    ∃ (p : Pars) (fitted : ACEnsemble) (labels : List Int),
      parsepars d a e tbl = .ok p ∧
      ACEnsemble.fit { pars := p } p.tnclus = .ok fitted ∧
      ACEnsemble.predict fitted p.fnclus p.consensus_method = .ok labels ∧
      getColT out clustersColName = some labels := by
  unfold main at h
  cases hp : parsepars d a e tbl with
  | error er =>
    rw [hp, bindE_error] at h
    exact Except.noConfusion h
  | ok p =>
    rw [hp] at h
    simp only [bindE_ok] at h
    cases hf : ACEnsemble.fit { pars := p } p.tnclus with
    | error er =>
      rw [hf, bindE_error] at h
      exact Except.noConfusion h
    | ok fitted =>
      rw [hf] at h
      simp only [bindE_ok] at h
      cases hl : ACEnsemble.predict fitted p.fnclus p.consensus_method with
      | error er =>
        rw [hl, bindE_error] at h
        exact Except.noConfusion h
      | ok labels =>
        rw [hl] at h
        simp only [bindE_ok] at h
        exact ⟨p, fitted, labels, rfl, hf, hl,
          buildOutput_clusters _ _ _ _ _ _ _ h⟩

/-- C5: a nonpositive parsed search range (positions 3-5 of `searchparams`)
makes the run fail with `InvalidGeometryError` at the spatial-index build
inside `fit` — before any clustering work — and `main` then propagates the
error and produces no output table. -/
theorem nonpositive_range_invalid_geometry (d a e : List PyStr) (tbl : DataTable)
    (base : OutTable) (p : Pars) (r : Rat)
    (hp : parsepars d a e tbl = .ok p)
    (hr : r ∈ p.searchparams.drop 3) (hr0 : r ≤ 0) :
    ACEnsemble.fit { pars := p } p.tnclus = .error .invalidGeometry ∧
      main d a e tbl base = .error .invalidGeometry := by
  have hnc : ¬(p.searchparams.length = 6 ∧ ∀ x ∈ p.searchparams.drop 3, 0 < x) := by
    rintro ⟨-, hall⟩
    exact absurd (hall r hr) (not_lt.mpr hr0)
  have hbuild : SpatialIndex.build p.locations p.searchparams = .error .invalidGeometry := by
    unfold SpatialIndex.build
    rw [if_neg hnc]
  have hfit : ACEnsemble.fit { pars := p } p.tnclus = .error .invalidGeometry := by
    unfold ACEnsemble.fit
    rw [hbuild, bindE_error]
  refine ⟨hfit, ?_⟩
  unfold main
  rw [hp]
  simp only [bindE_ok]
  rw [hfit, bindE_error]

/-- C5 witness: the zero-range fixture fails with `InvalidGeometryError`. -/
theorem nonpositive_range_invalid_geometry_witness :
    ACEnsemble.fit { pars := pZeroRange } pZeroRange.tnclus = .error .invalidGeometry ∧
      main dataLinesW acLinesZeroRange ensLinesW tblW [] = .error .invalidGeometry :=
  nonpositive_range_invalid_geometry dataLinesW acLinesZeroRange ensLinesW tblW []
    pZeroRange 0 (by decide) (by decide) (le_refl 0)

/-- C2 witness: a full concrete run through `main` on the well-formed
fixture. -/
theorem main_fit_predict_column_witness :
    ∃ (p : Pars) (fitted : ACEnsemble) (labels : List Int),
      parsepars dataLinesW acLinesW ensLinesW tblW = .ok p ∧
      ACEnsemble.fit { pars := p } p.tnclus = .ok fitted ∧
      ACEnsemble.predict fitted p.fnclus p.consensus_method = .ok labels ∧
      getColT [(clustersColName, [0, 1, 0]), (realColName 0, [0, 1, 0]),
        (realColName 1, [0, 1, 0])] clustersColName = some labels :=
  main_fit_predict_column dataLinesW acLinesW ensLinesW tblW []
    [(clustersColName, [0, 1, 0]), (realColName 0, [0, 1, 0]),
      (realColName 1, [0, 1, 0])]
    (by decide)

theorem isConfigRejection_bind {α β : Type} (x : Except PyErr α)
    (f : α → Except PyErr β) (hx : isConfigRejection x = false)
    (hf : ∀ y, isConfigRejection (f y) = false) :
    isConfigRejection (x >>= f) = false := by
  cases x with
  | error er =>
    rw [bindE_error]
    cases er
    case invalidConfiguration => exact absurd hx (by simp [isConfigRejection])
    all_goals rfl
  | ok y => rw [bindE_ok]; exact hf y

theorem getLineE_ncr (ls : List PyStr) (i : Nat) :
    isConfigRejection (getLineE ls i) = false := by
  unfold getLineE
  cases h : ls.get? i <;> rfl

theorem firstTokE_ncr (l : PyStr) : isConfigRejection (firstTokE l) = false := by
  unfold firstTokE
  cases h : splitWs l <;> rfl

theorem parseIntE_ncr (s : PyStr) : isConfigRejection (parseIntE s) = false := by
  unfold parseIntE
  cases h : parseInt? s <;> rfl

theorem parseFloatE_ncr (s : PyStr) : isConfigRejection (parseFloatE s) = false := by
  unfold parseFloatE
  cases h : parseFloat? s <;> rfl

theorem unpack4I_ncr (l : List Int) : isConfigRejection (unpack4I l) = false := by
  unfold unpack4I
  split <;> rfl

theorem unpack2I_ncr (l : List Int) : isConfigRejection (unpack2I l) = false := by
  unfold unpack2I
  split <;> rfl

theorem unpack2R_ncr (l : List Rat) : isConfigRejection (unpack2R l) = false := by
  unfold unpack2R
  split <;> rfl

theorem assertE_ncr (b : Prop) [Decidable b] :
    isConfigRejection (assertE b) = false := by
  unfold assertE
  split <;> rfl

theorem getColE_ncr (t : DataTable) (i : Int) :
    isConfigRejection (getColE t i) = false := by
  unfold getColE
  split
  · rfl
  · split <;> rfl

theorem exMap_ncr {α β : Type} (f : α → Except PyErr β)
    (hf : ∀ x, isConfigRejection (f x) = false) :
    ∀ l : List α, isConfigRejection (exMap f l) = false := by
  intro l
  induction l with
  | nil => rfl
  | cons x xs ih =>
    simp only [exMap]
    apply isConfigRejection_bind _ _ (hf x)
    intro y
    apply isConfigRejection_bind _ _ ih
    intro ys
    rfl

theorem locationsOf_ncr (t : DataTable) (ifx ify ifz : Int) :
    isConfigRejection (locationsOf t ifx ify ifz) = false := by
  unfold locationsOf
  apply isConfigRejection_bind _ _ (getColE_ncr t (ifx - 1))
  intro c1
  apply isConfigRejection_bind _ _ (getColE_ncr t (ify - 1))
  intro c2
  split
  · apply isConfigRejection_bind _ _ (getColE_ncr t (ifz - 1))
    intro c3
    rfl
  · rfl

theorem dhsOf_ncr (t : DataTable) (dh : Int) :
    isConfigRejection (dhsOf t dh) = false := by
  unfold dhsOf
  split
  · apply isConfigRejection_bind _ _ (getColE_ncr t (dh - 1))
    intro c
    rfl
  · rfl

theorem parseDataSection_ncr (lines : List PyStr) (data : DataTable) :
    isConfigRejection (parseDataSection lines data) = false := by
  unfold parseDataSection
  apply isConfigRejection_bind _ _ (getLineE_ncr lines 0)
  intro l0
  apply isConfigRejection_bind _ _ (firstTokE_ncr l0)
  intro datafile
  apply isConfigRejection_bind _ _ (getLineE_ncr lines 1)
  intro l1
  apply isConfigRejection_bind _ _ (exMap_ncr _ parseIntE_ncr _)
  intro nums
  apply isConfigRejection_bind _ _ (unpack4I_ncr nums)
  intro q
  apply isConfigRejection_bind _ _ (assertE_ncr _)
  intro u
  apply isConfigRejection_bind _ _ (locationsOf_ncr data q.2.1 q.2.2.1 q.2.2.2)
  intro locations
  apply isConfigRejection_bind _ _ (dhsOf_ncr data q.1)
  intro dhs
  apply isConfigRejection_bind _ _ (getLineE_ncr lines 2)
  intro l2
  apply isConfigRejection_bind _ _ (exMap_ncr _ parseIntE_ncr _)
  intro varcols
  apply isConfigRejection_bind _ _ (exMap_ncr _ (fun vc => getColE_ncr data (vc - 1)) _)
  intro mvdata
  apply isConfigRejection_bind _ _ (getLineE_ncr lines 3)
  intro l3
  apply isConfigRejection_bind _ _ (firstTokE_ncr l3)
  intro outfile
  apply isConfigRejection_bind _ _ (getLineE_ncr lines 4)
  intro l4
  apply isConfigRejection_bind _ _ (exMap_ncr _ parseIntE_ncr _)
  intro flags
  apply isConfigRejection_bind _ _ (unpack2I_ncr flags)
  intro fl
  apply isConfigRejection_bind _ _ (getLineE_ncr lines 5)
  intro l5
  apply isConfigRejection_bind _ _ (firstTokE_ncr l5)
  intro t5
  apply isConfigRejection_bind _ _ (parseIntE_ncr t5)
  intro ap
  rfl

theorem parseACSection_ncr (lines : List PyStr) :
    isConfigRejection (parseACSection lines) = false := by
  unfold parseACSection
  apply isConfigRejection_bind _ _ (getLineE_ncr lines 0)
  intro l0
  apply isConfigRejection_bind _ _ (firstTokE_ncr l0)
  intro t0
  apply isConfigRejection_bind _ _ (parseIntE_ncr t0)
  intro nnears
  apply isConfigRejection_bind _ _ (getLineE_ncr lines 1)
  intro l1
  apply isConfigRejection_bind _ _ (exMap_ncr _ parseFloatE_ncr _)
  intro angs
  apply isConfigRejection_bind _ _ (getLineE_ncr lines 2)
  intro l2
  apply isConfigRejection_bind _ _ (exMap_ncr _ parseFloatE_ncr _)
  intro ranges
  apply isConfigRejection_bind _ _ (getLineE_ncr lines 3)
  intro l3
  apply isConfigRejection_bind _ _ (firstTokE_ncr l3)
  intro cm
  apply isConfigRejection_bind _ _ (getLineE_ncr lines 4)
  intro l4
  apply isConfigRejection_bind _ _ (exMap_ncr _ parseIntE_ncr _)
  intro acm
  apply isConfigRejection_bind _ _ (getLineE_ncr lines 5)
  intro l5
  apply isConfigRejection_bind _ _ (exMap_ncr _ parseFloatE_ncr _)
  intro acp
  rfl

theorem parseENSSection_ncr (lines : List PyStr) :
    isConfigRejection (parseENSSection lines) = false := by
  unfold parseENSSection
  apply isConfigRejection_bind _ _ (getLineE_ncr lines 0)
  intro l0
  apply isConfigRejection_bind _ _ (firstTokE_ncr l0)
  intro t0
  apply isConfigRejection_bind _ _ (parseIntE_ncr t0)
  intro rseed
  apply isConfigRejection_bind _ _ (getLineE_ncr lines 1)
  intro l1
  apply isConfigRejection_bind _ _ (firstTokE_ncr l1)
  intro t1
  apply isConfigRejection_bind _ _ (parseIntE_ncr t1)
  intro nreal
  apply isConfigRejection_bind _ _ (getLineE_ncr lines 2)
  intro l2
  apply isConfigRejection_bind _ _ (firstTokE_ncr l2)
  intro t2
  apply isConfigRejection_bind _ _ (parseIntE_ncr t2)
  intro minvars
  apply isConfigRejection_bind _ _ (getLineE_ncr lines 3)
  intro l3
  apply isConfigRejection_bind _ _ (exMap_ncr _ parseIntE_ncr _)
  intro cs
  apply isConfigRejection_bind _ _ (unpack2I_ncr cs)
  intro fc
  apply isConfigRejection_bind _ _ (getLineE_ncr lines 4)
  intro l4
  apply isConfigRejection_bind _ _ (exMap_ncr _ parseFloatE_ncr _)
  intro rem
  apply isConfigRejection_bind _ _ (unpack2R_ncr rem)
  intro mr
  apply isConfigRejection_bind _ _ (getLineE_ncr lines 5)
  intro l5
  apply isConfigRejection_bind _ _ (exMap_ncr _ parseFloatE_ncr _)
  intro fnd
  apply isConfigRejection_bind _ _ (unpack2R_ncr fnd)
  intro mf
  apply isConfigRejection_bind _ _ (getLineE_ncr lines 6)
  intro l6
  apply isConfigRejection_bind _ _ (firstTokE_ncr l6)
  intro cm
  rfl

/-- C4 (amended): `parsepars` — the configuration-validation stage of the
wrapper — never rejects with `InvalidConfigurationError`: base cluster and
consensus method names (and everything else) are stored verbatim without
validation, so unknown method names are not rejected at
configuration-validation time. -/
theorem parsepars_never_config_rejects (d a e : List PyStr) (t : DataTable) :
    isConfigRejection (parsepars d a e t) = false := by
  unfold parsepars
  apply isConfigRejection_bind _ _ (parseDataSection_ncr d t)
  intro dp
  apply isConfigRejection_bind _ _ (parseACSection_ncr a)
  intro ap
  apply isConfigRejection_bind _ _ (parseENSSection_ncr e)
  intro ep
  rfl

/-- C4 counterexample: a parfile naming the unknown base cluster method
`bogus` is accepted by `parsepars`, which returns the name verbatim — no
rejection happens at configuration-validation time. -/
theorem bogus_method_accepted :
    Except.map Pars.cluster_method (parsepars dataLinesW acLinesBogus ensLinesW tblW) =
      .ok ("bogus".toList) ∧
    (["kmeans", "gmm", "hier"].contains "bogus") = false := by
  exact ⟨by decide, by decide⟩

/-- C3: on a well-formed parfile whose drill-hole column index is positive
(`dh = 1`), `parsepars` raises `TypeError` — line 68 subscripts the integer
`dh` instead of the data table — rather than returning the drill-hole column. -/
theorem parsepars_dh_positive_type_error :
    parsepars dataLinesDH acLinesW ensLinesW tblW = .error .typeError := by
  decide

end ACens
